import Mathlib

/-!
Verification of the DTaaS transfer engine against its specification.

The definitions below are a shallow embedding of the Python backend:
`services/transfer_service.py`, `celery_tasks.py`, `services/task_service.py`,
`connectors/s3.py`, `services/variable_resolver.py` and `transformations.py`.
External effects (database reads, destination writes, CDC reads, Python eval)
are modelled as oracle parameters; everything else follows the source control
flow statement by statement.
-/

namespace DTaaS

/-! ## Retry policy and the sequential per-table retry loop

`_execute_full_load_sequential` (transfer_service.py lines 78-277) drives each
table through a while-loop: `retry_count` starts at 0,
`max_retries = task.max_retries if task.retry_enabled else 0`, the loop runs
while `retry_count <= max_retries` and the table has not succeeded.  At the
start of every iteration with `retry_count > 0`, if `task.cleanup_on_retry`
and the destination has `cleanup_partial_files`, that cleanup is invoked once.
An exception in the body increments `retry_count`.
-/

/-- Retry-policy fields of a Task (models.py / schemas.py). -/
structure RetryPolicy where
  retry_enabled : Bool
  max_retries : Nat
  cleanup_on_retry : Bool
  deriving Repr, DecidableEq

/-- `max_retries = task.max_retries if task.retry_enabled else 0`
(transfer_service.py line 85). -/
def maxRetriesEff (p : RetryPolicy) : Nat :=
  if p.retry_enabled then p.max_retries else 0

/-- Outcome of running the per-table retry loop: number of processing
attempts made, number of `cleanup_partial_files` invocations, and whether the
table eventually succeeded. -/
structure TableRunStats where
  attempts : Nat
  cleanups : Nat
  succeeded : Bool
  deriving Repr, DecidableEq

/-- The while-loop of `_execute_full_load_sequential` (lines 87-277).
`fails n` says whether the attempt made with `retry_count = n` raises.
`fuel` is the number of loop iterations still allowed by the guard
`retry_count <= max_retries`, i.e. `max_retries + 1 - rc`. -/
def seqRetryGo (cleanupOn destHasCleanup : Bool) (fails : Nat → Bool) :
    Nat → Nat → TableRunStats
  | 0, _ => ⟨0, 0, false⟩
  | fuel + 1, rc =>
    -- cleanup before a retry attempt (lines 92-99)
    let c : Nat := if 0 < rc && cleanupOn && destHasCleanup then 1 else 0
    if fails rc then
      let r := seqRetryGo cleanupOn destHasCleanup fails fuel (rc + 1)
      ⟨r.attempts + 1, r.cleanups + c, r.succeeded⟩
    else
      ⟨1, c, true⟩

/-- Sequential per-table processing of one table (transfer_service.py lines
84-277): the loop starts at `retry_count = 0` and may iterate
`maxRetriesEff + 1` times. -/
def seqTableRun (p : RetryPolicy) (destHasCleanup : Bool)
    (fails : Nat → Bool) : TableRunStats :=
  seqRetryGo p.cleanup_on_retry destHasCleanup fails (maxRetriesEff p + 1) 0

/-! ## The parallel per-table worker

`_process_single_table_thread` (transfer_service.py lines 397-549) is the body
run by the `ThreadPoolExecutor` when `parallel_tables > 1`.  Although the
caller packs `retry_enabled`, `max_retries`, `retry_delay_seconds` and
`cleanup_on_retry` into `task_config` (lines 319-322), the worker never reads
them: it contains no retry loop and no call to `cleanup_partial_files`.  The
`TableExecution` it creates has `retry_count = 0` (line 442) and is never
incremented.  A raised exception leads straight to the
`return ... status failed` at line 549.
-/

/-- Result dict of `_process_single_table_thread` together with the fields of
the `TableExecution` it maintained.  `cleanupPartialCalls` counts invocations
of the destination cleanup; the function body contains none, so every exit
path yields 0. -/
structure ThreadResult where
  status : String
  rows_transferred : Nat
  retry_count : Nat
  cleanupPartialCalls : Nat
  deriving Repr, DecidableEq

/-- Batch loop of `_process_single_table_thread` (lines 470-521).
`writeFails i` says whether the `write_data` call for the i-th batch raises.
Batch size is `min batchRows (totalRows - offset)` rows; the loop stops when
`offset >= totalRows` or the batch comes back empty.  `fuel` bounds the
iterations (instantiated large enough that it never runs out for
`batchRows > 0`). -/
def threadBatchLoop (batchRows totalRows : Nat) (writeFails : Nat → Bool)
    (stopped : Bool) : Nat → Nat → Nat → Nat → Except String Nat
  | 0, _, _, rows => .ok rows
  | fuel + 1, batchIdx, offset, rows =>
    if offset < totalRows then
      if stopped then .error "InterruptedError: Task stopped"
      else
        let len := min batchRows (totalRows - offset)
        if len = 0 then .ok rows
        else if writeFails batchIdx then .error "WriteError"
        else threadBatchLoop batchRows totalRows writeFails stopped fuel
          (batchIdx + 1) (offset + batchRows) (rows + len)
    else .ok rows

/-- `_process_single_table_thread` for one table: a single processing pass
with no retry.  `stopped` is the task status check at line 421/473. -/
def processSingleTableThread (stopped : Bool) (batchRows totalRows : Nat)
    (writeFails : Nat → Bool) : ThreadResult :=
  if stopped then ⟨"stopped", 0, 0, 0⟩
  else
    match threadBatchLoop batchRows totalRows writeFails stopped
        (totalRows + 1) 0 0 0 with
    | .ok rows => ⟨"success", rows, 0, 0⟩
    | .error e =>
      if e = "InterruptedError: Task stopped" then ⟨"stopped", 0, 0, 0⟩
      else ⟨"failed", 0, 0, 0⟩

/-! ## Celery lifecycle tasks: `execute_task`, `start_task` (celery_tasks.py)

`execute_task` (lines 14-165) creates a `TaskExecution` and dispatches on
`task.mode`.  In `full_load_then_cdc` mode it computes
`tables_needing_full_load = [t for t in task.source_tables if t not in
completed_tables]` and, when that list is non-empty, calls
`transfer_service.execute_full_load(task, execution, progress_callback,
tables_to_load=tables_needing_full_load)` (lines 91-92).  The callee signature
is `execute_full_load(self, task, execution, progress_callback=None)`
(transfer_service.py lines 41-46), so the keyword argument is not accepted and
Python raises a `TypeError`, which the generic `except` at line 147 turns into
a failed execution and a failed task.
-/

/-- Items placed on the celery queue, with their countdown in seconds
(`delay` enqueues with countdown 0). -/
inductive QueueItem where
  | execTask (countdown : Nat)
  | cdcPolling (countdown : Nat)
  deriving Repr, DecidableEq

/-- The Task fields `execute_task` and `start_task` read. -/
structure TaskRec where
  status : String
  mode : String
  schedule_type : String
  source_tables : List String
  full_load_completed_tables : List (String × String)
  deriving Repr, DecidableEq

/-- Positional-or-keyword parameter names of
`TransferService.execute_full_load` after `self` (transfer_service.py lines
41-46). -/
def executeFullLoadParamNames : List String :=
  ["task", "execution", "progress_callback"]

/-- Keyword-argument names used at the call site celery_tasks.py lines
91-92. -/
def fullLoadThenCdcCallKwargs : List String := ["tables_to_load"]

/-- Python call semantics: a call raises `TypeError` unless every keyword
argument names a parameter of the callee. -/
def acceptsKwargs (params kwargs : List String) : Bool :=
  kwargs.all (fun k => params.contains k)

/-- Everything observable about one run of `execute_task`. -/
structure ExecTaskOutcome where
  executionCreated : Bool
  executionStatus : Option String
  taskStatus : String
  fullLoadTablesLoaded : List String
  completedAfter : List (String × String)
  enqueued : List QueueItem
  deriving Repr, DecidableEq

/-- Membership test `t not in completed_tables` on the dict keys
(celery_tasks.py line 86). -/
def hasCompletedKey (flc : List (String × String)) (t : String) : Bool :=
  flc.any (fun p => p.1 == t)

/-- `execute_task` (celery_tasks.py lines 14-165).  `transferOk` is the
oracle for whether a transfer-service call that does get invoked succeeds;
`now` is `datetime.utcnow().isoformat()` used when recording completion
times. -/
def executeTask (t : TaskRec) (transferOk : Bool) (now : String) :
    ExecTaskOutcome :=
  -- line 28: stale-queue guard
  if ¬ (t.status = "created" ∨ t.status = "running") then
    ⟨false, none, t.status, [], t.full_load_completed_tables, []⟩
  else
    -- line 44: execution record created (status pending)
    if t.mode = "full_load" ∨ t.mode = "cdc" then
      if transferOk then
        ⟨true, some "success", "completed",
          (if t.mode = "full_load" then t.source_tables else []),
          t.full_load_completed_tables,
          if t.schedule_type = "continuous" then [.execTask 10] else []⟩
      else
        ⟨true, some "failed", "failed", [], t.full_load_completed_tables, []⟩
    else if t.mode = "full_load_then_cdc" then
      let needs :=
        t.source_tables.filter
          (fun tb => ¬ hasCompletedKey t.full_load_completed_tables tb)
      if needs.isEmpty then
        -- lines 100-106: skip full load, start CDC polling, then the
        -- success epilogue at lines 110-126
        let q1 : List QueueItem :=
          if t.schedule_type = "continuous" ∨ t.schedule_type = "interval"
          then [.cdcPolling 0] else []
        ⟨true, some "success", "completed", [], t.full_load_completed_tables,
          q1 ++ (if t.schedule_type = "continuous" then [.execTask 10] else [])⟩
      else
        -- lines 91-92: keyword call into execute_full_load
        if acceptsKwargs executeFullLoadParamNames fullLoadThenCdcCallKwargs
        then
          -- (unreachable: the callee has no such parameter)
          if transferOk then
            let q1 : List QueueItem :=
              if t.schedule_type = "continuous" ∨ t.schedule_type = "interval"
              then [.cdcPolling 0] else []
            ⟨true, some "success", "completed", needs,
              t.full_load_completed_tables ++ needs.map (fun tb => (tb, now)),
              q1 ++
                (if t.schedule_type = "continuous" then [.execTask 10] else [])⟩
          else
            ⟨true, some "failed", "failed", [],
              t.full_load_completed_tables, []⟩
        else
          -- TypeError caught by the except at line 147
          ⟨true, some "failed", "failed", [],
            t.full_load_completed_tables, []⟩
    else
      -- line 108: ValueError for unknown mode, caught at line 147
      ⟨true, some "failed", "failed", [], t.full_load_completed_tables, []⟩

/-- Observable behaviour of `start_task`. -/
structure StartOutcome where
  skipped : Bool
  statusAfter : String
  dispatched : List QueueItem
  deriving Repr, DecidableEq

/-- `start_task` (celery_tasks.py lines 212-250): only status `stopped` is
skipped; any other status is set to `running` and an executor is
dispatched according to the mode. -/
def startTask (status mode : String) : StartOutcome :=
  if status = "stopped" then ⟨true, status, []⟩
  else
    ⟨false, "running",
      if mode = "full_load" then [.execTask 0]
      else if mode = "cdc" then [.cdcPolling 0]
      else if mode = "full_load_then_cdc" then [.execTask 0]
      else []⟩


/-! ## CDC synchronisation: `execute_cdc_sync` (transfer_service.py 551-693)

The per-table body (lines 569-675) creates a `TableExecution`, checks or
enables CDC, reads the last cursor from the `cdc_enabled_tables` dict under
the key `f-string table_name + _last_lsn` (the bare table name, after
`schema, table = name.split(dot, 1)` rebinds `table_name`), calls
`read_cdc_changes`, and - when the batch is non-empty - applies the task-level
transformations BEFORE the local `database_name` is assigned at line 630:
`database_name` is referenced at line 619 as an argument of
`apply_transformations`, so Python raises `UnboundLocalError` there whenever
`task.transformations` is non-empty.  The cursor assignment
`cdc_enabled_tables[table + _last_lsn] = new_lsn` at line 656 runs for both
empty and non-empty batches, after the write; any exception skips it and
marks the table failed, and the loop continues with the next table.  The
function returns status `success` unconditionally (line 686);
`execute_cdc_polling` (celery_tasks.py 168-209) then records the
`TaskExecution` as `success`.
-/

/-- A value stored in the `cdc_enabled_tables` JSON dict: either the
per-table enabled flag (`True`) or a last-LSN cursor (a hex string or
Python `None`). -/
inductive CdcVal where
  | flag (b : Bool)
  | lsn (s : Option String)
  deriving Repr, DecidableEq

/-- The `cdc_enabled_tables` dict. -/
abbrev CdcDict := List (String × CdcVal)

/-- `dict.get(k)`. -/
def dGet (d : CdcDict) (k : String) : Option CdcVal :=
  match d.find? (fun p => p.1 == k) with
  | some p => some p.2
  | none => none

/-- `dict[k] = v`: replace in place if the key exists, else append. -/
def dSet (d : CdcDict) (k : String) (v : CdcVal) : CdcDict :=
  if d.any (fun p => p.1 == k) then
    d.map (fun p => if p.1 == k then (k, v) else p)
  else d ++ [(k, v)]

/-- `cdc_enabled_tables.get(table + _last_lsn)` read as a cursor value. -/
def getLsn (d : CdcDict) (k : String) : Option String :=
  match dGet d k with
  | some (.lsn s) => s
  | _ => none

/-- `schema, table = table_name.split(dot, 1)` when a dot is present
(transfer_service.py lines 575-577): the part after the FIRST dot. -/
def bareTableName (s : String) : String :=
  if s.data.contains '.' then
    ⟨(s.data.dropWhile (fun c => c ≠ '.')).drop 1⟩
  else s

/-- Oracle for one table as seen by the source connector: CDC enablement,
the result of `enable_cdc`, the `read_cdc_changes` call (row count of the
returned frame and the returned `new_lsn`; `.error` models a raised
exception), and whether `write_data` succeeds. -/
structure CdcSource where
  isCdcEnabled : Bool
  enableCdcOk : Bool
  readCdc : Option String → Except String (Nat × Option String)
  writeOk : Bool

/-- The distinguishable ways the per-table CDC body can end. -/
inductive TblOutcome where
  | success (changes : Nat)
  | failed (err : String)
  | enableSkipped
  deriving Repr, DecidableEq

/-- `UnboundLocalError` message for the read of `database_name` at
transfer_service.py line 619. -/
def unboundLocalDatabaseName : String :=
  "UnboundLocalError: local variable database_name referenced before assignment"

/-- Status recorded on the `TableExecution`: the `continue` after a failed
`enable_cdc` (line 598) leaves the record in its initial `running` state. -/
def recordedTableStatus : TblOutcome → String
  | .success _ => "success"
  | .failed _ => "failed"
  | .enableSkipped => "running"

def tblChanges : TblOutcome → Nat
  | .success n => n
  | _ => 0

/-- Lines 601-662: cursor lookup, CDC read, transformation application,
write, and cursor store for one table (after the enablement check). -/
def cdcSyncTableBody (transformationsNonempty : Bool) (src : CdcSource)
    (table : String) (d : CdcDict) : CdcDict × TblOutcome :=
  let lastLsn := getLsn d (table ++ "_last_lsn")
  match src.readCdc lastLsn with
  | .error e => (d, .failed e)
  | .ok (n, newLsn) =>
    if n ≠ 0 then
      -- line 613: `if task.transformations:` - the call at lines 614-621
      -- reads the unassigned local `database_name`
      if transformationsNonempty then (d, .failed unboundLocalDatabaseName)
      else if ¬ src.writeOk then (d, .failed "WriteError")
      else (dSet d (table ++ "_last_lsn") (.lsn newLsn), .success n)
    else
      -- empty batch: the block at lines 611-653 is skipped but line 656
      -- still stores `new_lsn`
      (dSet d (table ++ "_last_lsn") (.lsn newLsn), .success 0)

/-- One iteration of the `for table_name in task.source_tables` loop of
`execute_cdc_sync` (lines 569-675). -/
def cdcSyncTable (transformationsNonempty : Bool) (src : CdcSource)
    (tableFull : String) (d : CdcDict) : CdcDict × TblOutcome :=
  let table := bareTableName tableFull
  if src.isCdcEnabled then cdcSyncTableBody transformationsNonempty src table d
  else if src.enableCdcOk then
    cdcSyncTableBody transformationsNonempty src table
      (dSet d table (.flag true))
  else (d, .enableSkipped)

/-- Observable result of `execute_cdc_sync`: per-table recorded statuses,
the rolled-up `total_changes`, and the final `cdc_enabled_tables` dict. -/
structure CdcSyncResult where
  perTable : List (String × String)
  totalChanges : Nat
  dict : CdcDict
  deriving Repr, DecidableEq

/-- `execute_cdc_sync` over the task's tables.  `stopped` models
`_check_if_stopped` (line 571), which raises `InterruptedError` out of the
whole function; per-table exceptions are caught and the loop continues
(lines 664-675).  The function itself always reports status success
(line 686). -/
def executeCdcSync (stopped transformationsNonempty : Bool)
    (srcOf : String → CdcSource) :
    List String → CdcDict → Except String CdcSyncResult
  | [], d => .ok ⟨[], 0, d⟩
  | t :: ts, d =>
    if stopped then .error "InterruptedError: Task stopped"
    else
      let step := cdcSyncTable transformationsNonempty (srcOf t) t d
      match executeCdcSync stopped transformationsNonempty srcOf ts step.1 with
      | .error e => .error e
      | .ok r =>
        .ok ⟨(bareTableName t, recordedTableStatus step.2) :: r.perTable,
          tblChanges step.2 + r.totalChanges, r.dict⟩

/-- `execute_cdc_polling` (celery_tasks.py lines 168-209): skipped unless the
task status is `running`; otherwise a `TaskExecution` (initially `pending`)
is created, the sync runs, and on success the execution is recorded
`success` and the next poll is scheduled from the schedule type.  An
exception leaves the execution record in its `pending` state and schedules
nothing. -/
def executeCdcPolling (taskStatus : String)
    (stopped transformationsNonempty : Bool) (srcOf : String → CdcSource)
    (tables : List String) (d : CdcDict) (scheduleType : String)
    (intervalSeconds : Option Nat) : Option String × List QueueItem :=
  if taskStatus ≠ "running" then (none, [])
  else
    match executeCdcSync stopped transformationsNonempty srcOf tables d with
    | .error _ => (some "pending", [])
    | .ok _ =>
      (some "success",
        if scheduleType = "continuous" then [.cdcPolling 10]
        else if scheduleType = "interval" then
          match intervalSeconds with
          | some s => [.cdcPolling s]
          | none => []
        else [])

/-- Source oracle for the C5 scenario: table `dbo.A` has five changes and a
clean write; the CDC read for any other table raises. -/
def c5SourceOf : String → CdcSource := fun t =>
  if t = "dbo.A" then ⟨true, true, fun _ => .ok (5, some "0x02"), true⟩
  else ⟨true, true, fun _ => .error "read failed", true⟩

/-- Sync result of the C5 scenario. -/
def c5Result : CdcSyncResult :=
  ⟨[("A", "success"), ("B", "failed")], 5,
    [("A_last_lsn", .lsn (some "0x02"))]⟩

/-- Source oracle for the C6 scenario: CDC read returns an empty batch and
end-LSN `0x02`. -/
def c6SourceOf : String → CdcSource :=
  fun _ => ⟨true, true, fun _ => .ok (0, some "0x02"), true⟩

/-- Source oracle for the C10 scenario: three changed rows, new LSN
`0x05`. -/
def c10SourceOf : String → CdcSource :=
  fun _ => ⟨true, true, fun _ => .ok (3, some "0x05"), true⟩

/-! ## Task update: CDC-state cleanup (task_service.py lines 112-156)

`TaskService.update_task` computes `removed_tables = old - new` and, when
that set and `db_task.cdc_enabled_tables` are both non-empty, pops from the
CDC dict the key `table` (the schema-qualified name), the key
`base_name + _last_lsn` (`base_name = table.split(dot)[-1]`), and the key
`table + _last_lsn`.  Nothing in `update_task` touches
`full_load_completed_tables`, and the enabled flag that
`execute_cdc_sync` stores under the BARE table name (line 599) is not among
the popped keys.
-/

/-- `table.split(dot)[-1] if dot in table else table` (task_service.py line
142): the component after the last dot. -/
def lastDotComponent (s : String) : String :=
  if s.data.contains '.' then
    ⟨(s.data.reverse.takeWhile (fun c => c ≠ '.')).reverse⟩
  else s

/-- `dict.pop(k, None)`. -/
def dPop (d : CdcDict) (k : String) : CdcDict :=
  d.filter (fun p => !(p.1 == k))

/-- `dict.get(k) is not None` on string keys. -/
def hasKey (d : CdcDict) (k : String) : Bool :=
  d.any (fun p => p.1 == k)

/-- The three pops of task_service.py lines 139-144 for one removed table. -/
def cleanupRemovedTable (d : CdcDict) (t : String) : CdcDict :=
  dPop (dPop (dPop d t) (lastDotComponent t ++ "_last_lsn"))
    (t ++ "_last_lsn")

/-- The `source_tables` branch of `update_task` (lines 130-150): CDC-state
cleanup for removed tables; `full_load_completed_tables` is returned
untouched because the function never writes it. -/
def updateTaskTables (oldTables newTables : List String) (cdc : CdcDict)
    (flc : List (String × String)) : CdcDict × List (String × String) :=
  let removed := oldTables.filter (fun t => !(newTables.contains t))
  if !removed.isEmpty && !cdc.isEmpty then
    (removed.foldl cleanupRemovedTable cdc, flc)
  else (cdc, flc)

/-! ## S3 destination: path-template resolution and object keys

`VariableResolver.resolve` (variable_resolver.py lines 43-73) finds all
`$\w+` tokens and replaces each with its resolved value: built-in dynamic
variables first (`timestamp`, `date`, `uuid`), then context variables
(case-insensitive, `ContextVariables` in inline_variable_parser.py), then
global variables from the database (`unknown` when missing or failing).
`S3Connector.write_data` (s3.py lines 307-377) resolves the path template
and then, when the resolved path contains a slash, splits at the LAST slash:
only if the final segment contains a dot or a dollar sign is it treated as a
filename pattern (with the recognised-extension check); otherwise the whole
resolved path is treated as a directory and `data_<timestamp>.<fmt>` is
appended.
-/

/-- A character matched by `\w` in the templates handled here (ASCII
letters, digits, underscore). -/
def wordChar (c : Char) : Bool := c.isAlphanum || c = '_'

/-- `re.findall` of `$` followed by a maximal `\w+` run
(variable_resolver.py line 55).  Structural recursion on a fuel counter
bounded below by the remaining input length. -/
def findVarNamesAux : Nat → List Char → List String
  | 0, _ => []
  | _ + 1, [] => []
  | fuel + 1, c :: rest =>
    if c = '$' then
      let name := rest.takeWhile wordChar
      if name.isEmpty then findVarNamesAux fuel rest
      else (⟨name⟩ : String) :: findVarNamesAux fuel (rest.dropWhile wordChar)
    else findVarNamesAux fuel rest

def findVarNames (l : List Char) : List String := findVarNamesAux l.length l

/-- `str.replace(pat, rep)`: replace every non-overlapping occurrence,
scanning left to right.  Structural recursion on a fuel counter bounded
below by the remaining input length. -/
def replaceAllAux (pat rep : List Char) : Nat → List Char → List Char
  | 0, l => l
  | _ + 1, [] => []
  | fuel + 1, c :: rest =>
    if pat.isPrefixOf (c :: rest) && !pat.isEmpty then
      rep ++ replaceAllAux pat rep fuel (rest.drop (pat.length - 1))
    else c :: replaceAllAux pat rep fuel rest

def pyReplace (s pat rep : String) : String :=
  ⟨replaceAllAux pat.data rep.data s.data.length s.data⟩

/-- Python `pat in s` on strings. -/
def isSubstring (pat : List Char) : List Char → Bool
  | [] => pat.isEmpty
  | c :: rest => pat.isPrefixOf (c :: rest) || isSubstring pat rest

def containsStr (s pat : String) : Bool := isSubstring pat.data s.data

/-- ASCII lowercasing (`str.lower()` on the identifiers and paths used
here). -/
def lowerChar (c : Char) : Char :=
  if 65 ≤ c.toNat ∧ c.toNat ≤ 90 then Char.ofNat (c.toNat + 32) else c

def lowerStr (s : String) : String := ⟨s.data.map lowerChar⟩

def endsWithStr (s suffixStr : String) : Bool :=
  suffixStr.data.isSuffixOf s.data

/-- The inputs a `VariableResolver` instance resolves against: the current
evaluation instant (`$timestamp`, `$date`), the generated `$uuid`, the
context (source database, table, task, connector), and an oracle giving the
value each global variable resolves to (static value, db-query result or
recursively resolved expression; `unknown` already folded in for
failures). -/
structure ResolverEnv where
  nowTimestamp : String
  nowDate : String
  uuidVal : String
  databaseName : String
  tableName : String
  taskName : String
  taskId : String
  connectorName : String
  globalValues : List (String × String)

def lookupStr (m : List (String × String)) (k : String) : Option String :=
  match m.find? (fun p => p.1 == k) with
  | some p => some p.2
  | none => none

/-- Lowercased keys of `ContextVariables.CONTEXT_VARS`
(inline_variable_parser.py lines 201-210). -/
def contextVarNamesLower : List String :=
  ["sourcedatabasename", "tablename", "sourcetablename", "timestamp",
    "date", "uuid", "taskname", "taskid", "connectorname"]

/-- `ContextVariables.is_context_variable` (lines 246-250). -/
def isContextVariable (v : String) : Bool :=
  contextVarNamesLower.contains (lowerStr v)

/-- `ContextVariables.get_context_value` (lines 214-241); `none` models the
Python `None` fall-through (reached only for timestamp/date/uuid, which the
resolver handles earlier). -/
def getContextValue (env : ResolverEnv) (v : String) : Option String :=
  let vl := lowerStr v
  if vl = "sourcedatabasename" then some env.databaseName
  else if vl = "tablename" ∨ vl = "sourcetablename" then some env.tableName
  else if vl = "taskname" then some env.taskName
  else if vl = "taskid" then some env.taskId
  else if vl = "connectorname" then some env.connectorName
  else none

/-- `VariableResolver._resolve_global_variable` (lines 131-161), with the
variable table and its evaluation collapsed into the `globalValues`
oracle: a missing variable resolves to the literal `unknown`. -/
def resolveGlobalVariable (env : ResolverEnv) (v : String) : String :=
  match lookupStr env.globalValues v with
  | some val => val
  | none => "unknown"

/-- `VariableResolver._resolve_variable` (lines 75-107) for a resolver built
without inline variables, as `S3Connector.resolve_path_template` builds it
(s3.py lines 127-132). -/
def resolveVariable (env : ResolverEnv) (v : String) : String :=
  if v = "timestamp" then env.nowTimestamp
  else if v = "date" then env.nowDate
  else if v = "uuid" then env.uuidVal
  else if isContextVariable v then
    match getContextValue env v with
    | some s => s
    | none => "None"
  else resolveGlobalVariable env v

/-- `VariableResolver.resolve` (lines 43-73): find all `$name` tokens and
replace each globally, in order of first occurrence. -/
def resolveTemplate (env : ResolverEnv) (template : String) : String :=
  (findVarNames template.data).foldl
    (fun acc v => pyReplace acc ("$" ++ v) (resolveVariable env v)) template

/-- `S3Connector.resolve_path_template` (s3.py lines 92-165), db_session
branch: optional legacy `$customerId` replacement (only when a legacy
customer-query config is present), then full resolution. -/
def resolvePathTemplate (pathTemplate prefixPath : String)
    (env : ResolverEnv) (legacyCustomerConfigured : Bool)
    (legacyCustomerId : String) : String :=
  if pathTemplate = "" then prefixPath
  else
    let path :=
      if containsStr pathTemplate "$customerId" && legacyCustomerConfigured
      then pyReplace pathTemplate "$customerId" legacyCustomerId
      else pathTemplate
    resolveTemplate env path

/-- `str.split(c)` on a character. -/
def splitOnChar (c : Char) : List Char → List (List Char)
  | [] => [[]]
  | x :: xs =>
    let r := splitOnChar c xs
    if x = c then [] :: r
    else
      match r with
      | h :: t => (x :: h) :: t
      | [] => [[x]]

/-- `s.rsplit(slash, 1)` when a slash is present: the part before the last
slash and the final segment. -/
def rsplitSlash (s : String) : String × String :=
  let segs := splitOnChar '/' s.data
  (⟨List.intercalate ['/'] segs.dropLast⟩, ⟨segs.getLastD []⟩)

/-- `valid_extensions` (s3.py line 349). -/
def validExtensions : List String :=
  [".parquet", ".csv", ".json", ".txt", ".avro", ".orc"]

/-- Object-key computation of `S3Connector.write_data` (s3.py lines
307-377).  `env.nowTimestamp` is the `datetime.utcnow()` of the write (the
same evaluation instant as the resolver uses). -/
def s3WriteDataKey (pathTemplate prefixPath : String) (env : ResolverEnv)
    (legacyCustomerConfigured : Bool) (legacyCustomerId : String)
    (tableName : String) (schemaOpt : Option String)
    (mode fileFormat : String) : String :=
  let timestamp := env.nowTimestamp
  if pathTemplate ≠ "" then
    let resolvedPath :=
      resolvePathTemplate pathTemplate prefixPath env
        legacyCustomerConfigured legacyCustomerId
    if resolvedPath.data.contains '/' then
      let parts := rsplitSlash resolvedPath
      if parts.2.data.contains '.' || parts.2.data.contains '$' then
        -- lines 341-356: filename pattern
        let fp :=
          pyReplace (pyReplace parts.2 "$timestamp" timestamp) "$uuid"
            env.uuidVal
        if validExtensions.any (fun e => endsWithStr (lowerStr fp) e) then
          parts.1 ++ "/" ++ fp
        else parts.1 ++ "/" ++ fp ++ "." ++ fileFormat
      else
        -- lines 357-360: path is directory only
        resolvedPath ++ "/data_" ++ timestamp ++ "." ++ fileFormat
    else resolvedPath ++ "/data_" ++ timestamp ++ "." ++ fileFormat
  else
    -- lines 364-377: default prefix-based path
    let basePath :=
      match schemaOpt with
      | some sch => prefixPath ++ "/" ++ sch ++ "/" ++ tableName
      | none => prefixPath ++ "/" ++ tableName
    if mode = "overwrite" then basePath ++ "/data." ++ fileFormat
    else basePath ++ "/data_" ++ timestamp ++ "." ++ fileFormat

/-- Resolver environment of the C8 scenario: evaluation instant
2024-03-01T12:00:00Z, current table `Orders`, and a global db_query variable
`customerId` that returns 42. -/
def c8Env : ResolverEnv :=
  ⟨"20240301_120000", "20240301", "8c9e6679-7425-40de-944b-e07fc1f90ae7",
    "SourceDb", "Orders", "T1", "7", "src", [("customerId", "42")]⟩

/-! ## Transformation engine: `_apply_function` (transformations.py 319-351)

The dispatch recognises the names `upper`, `lower`, `trim`, `length` and
applies the corresponding pandas string accessor.  ANY other function string
falls into the else branch, which executes
`df[target_column] = df[column_name].apply(eval(function))`: the
user-supplied string is passed to Python `eval`; an exception from `eval` or
`apply` is swallowed and the frame is returned unchanged.
-/

/-- A cell of a batch: string or numeric. -/
inductive Cell where
  | s (v : String)
  | n (v : Nat)
  deriving Repr, DecidableEq

/-- A batch as a column-name-to-cells map. -/
abbrev DataFrame := List (String × List Cell)

def dfGetCol (df : DataFrame) (name : String) : Option (List Cell) :=
  match df.find? (fun p => p.1 == name) with
  | some p => some p.2
  | none => none

def dfSetCol (df : DataFrame) (name : String) (col : List Cell) : DataFrame :=
  if df.any (fun p => p.1 == name) then
    df.map (fun p => if p.1 == name then (name, col) else p)
  else df ++ [(name, col)]

def upperChar (c : Char) : Char :=
  if 97 ≤ c.toNat ∧ c.toNat ≤ 122 then Char.ofNat (c.toNat - 32) else c

def upperStr (s : String) : String := ⟨s.data.map upperChar⟩

def isSpaceChar (c : Char) : Bool :=
  c == ' ' || c == '\t' || c == '\n' || c == '\r'

/-- `str.strip()`: drop whitespace from both ends. -/
def stripStr (s : String) : String :=
  ⟨((s.data.dropWhile isSpaceChar).reverse.dropWhile isSpaceChar).reverse⟩

/-- `.str.upper()` cell-wise; non-string cells are left alone (pandas yields
NaN there, which the claims never exercise). -/
def upperCell : Cell → Cell
  | .s v => .s (upperStr v)
  | c => c

def lowerCell : Cell → Cell
  | .s v => .s (lowerStr v)
  | c => c

def trimCell : Cell → Cell
  | .s v => .s (stripStr v)
  | c => c

def lengthCell : Cell → Cell
  | .s v => .n v.length
  | c => c

/-- Result of `_apply_function`: the transformed frame, whether Python
`eval` was invoked on the function string, and what string was passed to
it. -/
structure ApplyFnResult where
  df : DataFrame
  evalCalled : Bool
  evalArg : Option String
  deriving Repr, DecidableEq

/-- `TransformationEngine._apply_function` (transformations.py lines
319-351).  `pyEval` is the oracle for `eval(function)`: `some f` when the
string evaluates to a callable, `none` when evaluation (or the subsequent
apply) raises - in which case the exception is swallowed and the frame is
unchanged. -/
def applyFunctionTransform (pyEval : String → Option (Cell → Cell))
    (df : DataFrame) (columnName functionName : String)
    (targetColumn : Option String) : ApplyFnResult :=
  let target := targetColumn.getD columnName
  match dfGetCol df columnName with
  | none => ⟨df, false, none⟩
  | some col =>
    if functionName = "upper" then
      ⟨dfSetCol df target (col.map upperCell), false, none⟩
    else if functionName = "lower" then
      ⟨dfSetCol df target (col.map lowerCell), false, none⟩
    else if functionName = "trim" then
      ⟨dfSetCol df target (col.map trimCell), false, none⟩
    else if functionName = "length" then
      ⟨dfSetCol df target (col.map lengthCell), false, none⟩
    else
      match pyEval functionName with
      | some f => ⟨dfSetCol df target (col.map f), true, some functionName⟩
      | none => ⟨df, true, some functionName⟩

/-! ## Theorems -/

theorem seqRetryGo_allFail_pos (cleanupOn destHasCleanup : Bool) :
    ∀ fuel rc, 0 < rc →
      seqRetryGo cleanupOn destHasCleanup (fun _ => true) fuel rc =
        ⟨fuel, if cleanupOn && destHasCleanup then fuel else 0, false⟩ := by
  intro fuel
  induction fuel with
  | zero => intro rc _; simp [seqRetryGo]
  | succ n ih =>
    intro rc hrc
    rw [seqRetryGo]
    simp only [ih (rc + 1) (Nat.succ_pos rc)]
    have hpos : (0 < rc && cleanupOn && destHasCleanup) =
        (cleanupOn && destHasCleanup) := by
      simp [decide_eq_true_eq, hrc]
    rw [hpos]
    cases h : cleanupOn && destHasCleanup <;> simp [h]

/-- The sequential retry loop on a table that keeps failing makes exactly
`maxRetriesEff + 1` attempts and, when cleanup is configured and supported,
`maxRetriesEff` cleanup invocations. -/
theorem seqRetryGo_allFail_zero (cleanupOn destHasCleanup : Bool) (k : Nat) :
    seqRetryGo cleanupOn destHasCleanup (fun _ => true) (k + 1) 0 =
      ⟨k + 1, if cleanupOn && destHasCleanup then k else 0, false⟩ := by
  rw [seqRetryGo]
  simp only [seqRetryGo_allFail_pos cleanupOn destHasCleanup k 1 Nat.one_pos]
  cases h : cleanupOn && destHasCleanup <;> simp [h]

/-- Retry budget of the sequential path: with retries enabled,
`max_retries = k` and `cleanup_on_retry`, a table that keeps failing produces
exactly `k + 1` attempts and `k` cleanup invocations. -/
theorem seqTableRun_retry_budget (p : RetryPolicy) (k : Nat)
    (h1 : p.retry_enabled = true) (h2 : p.max_retries = k)
    (h3 : p.cleanup_on_retry = true) :
    seqTableRun p true (fun _ => true) = ⟨k + 1, k, false⟩ := by
  unfold seqTableRun maxRetriesEff
  rw [h1, h3, if_pos rfl, h2, seqRetryGo_allFail_zero]
  simp

theorem seqTableRun_retry_budget_check :
    seqTableRun ⟨true, 2, true⟩ true (fun _ => true) = ⟨3, 2, false⟩ :=
  seqTableRun_retry_budget ⟨true, 2, true⟩ 2 rfl rfl rfl

/-- Claim C1 (code bug): in the parallel path, a table of 1000 rows whose
first write raises a transient error is not retried: the worker reports the
table failed after a single attempt (`retry_count = 0`, zero rows) and never
invokes the destination partial-file cleanup, regardless of the retry policy
passed to it in `task_config`.  The spec requires a successful second attempt
preceded by one cleanup invocation. -/
theorem c1_parallel_no_retry :
    processSingleTableThread false 1000 1000 (fun i => i == 0) =
      ⟨"failed", 0, 0, 0⟩ ∧
    seqTableRun ⟨true, 2, true⟩ true (fun n => n == 0) = ⟨2, 1, true⟩ := by
  constructor
  · rfl
  · rfl

/-- Claim C2 (code bug): starting an execution of a `full_load_then_cdc` task
with `source_tables = [dbo.A, dbo.B]` and `dbo.A` already in
`full_load_completed_tables` does not full-load `dbo.B`: the keyword call
`execute_full_load(..., tables_to_load=[dbo.B])` raises `TypeError` because
the callee has no such parameter, so the execution is recorded `failed`, no
table is loaded, nothing is added to `full_load_completed_tables`, and no CDC
polling is enqueued. -/
theorem c2_tables_to_load_type_error :
    executeTask
        ⟨"running", "full_load_then_cdc", "on_demand", ["dbo.A", "dbo.B"],
          [("dbo.A", "2024-01-01T00:00:00")]⟩ true "2024-06-01T00:00:00" =
      ⟨true, some "failed", "failed", [],
        [("dbo.A", "2024-01-01T00:00:00")], []⟩ ∧
    acceptsKwargs executeFullLoadParamNames fullLoadThenCdcCallKwargs =
      false := by
  exact ⟨rfl, rfl⟩

/-- Claim C4 (code bug): in `full_load_then_cdc` mode with a continuous
schedule, a successful `execute_task` run (all tables already full-loaded)
enqueues BOTH the CDC polling loop and another delayed `execute_task`
(countdown 10), so a further full-load executor is scheduled, contrary to the
specification that only the CDC polling loop continues. -/
theorem c4_continuous_enqueues_both :
    (executeTask
        ⟨"running", "full_load_then_cdc", "continuous", ["dbo.A"],
          [("dbo.A", "2024-01-01T00:00:00")]⟩ true
        "2024-06-01T00:00:00").enqueued =
      [QueueItem.cdcPolling 0, QueueItem.execTask 10] := by
  rfl

/-- Claim C3, counterexample: on a task whose status is `running`, the start
operation is not a no-op: `start_task` dispatches a fresh executor, and the
dispatched `execute_task` (whose stale-queue guard admits status `running`)
creates a new `TaskExecution`. -/
theorem c3_counterexample :
    (startTask "running" "full_load").dispatched = [QueueItem.execTask 0] ∧
    (executeTask ⟨"running", "full_load", "on_demand", ["dbo.Orders"], []⟩
        true "2024-06-01T00:00:00").executionCreated = true := by
  exact ⟨rfl, rfl⟩

/-- Claim C3, amended: `start_task` is a no-op only for tasks whose status is
`stopped`; a start on a task in any other status - in particular `running` -
dispatches a new executor, and that executor creates a new `TaskExecution`,
so repeated start calls can produce overlapping executions. -/
theorem c3_start_not_idempotent (status mode : String) (t : TaskRec)
    (hmode : mode = "full_load" ∨ mode = "cdc" ∨ mode = "full_load_then_cdc")
    (hrun : status ≠ "stopped") (ht : t.status = "running") (ok : Bool)
    (now : String) :
    (startTask status mode).dispatched ≠ [] ∧
    (startTask "stopped" mode).dispatched = [] ∧
    (executeTask t ok now).executionCreated = true := by
  refine ⟨?_, ?_, ?_⟩
  · unfold startTask
    rw [if_neg hrun]
    rcases hmode with h | h | h <;> subst h <;> simp
  · simp [startTask]
  · unfold executeTask
    rw [if_neg (not_not_intro (Or.inr ht))]
    repeat' split
    all_goals first
      | rfl
      | (dsimp only; split <;> rfl)

theorem c3_start_not_idempotent_witness :
    (startTask "running" "full_load").dispatched ≠ [] ∧
    (startTask "stopped" "full_load").dispatched = [] ∧
    (executeTask ⟨"running", "full_load", "on_demand", ["dbo.Orders"], []⟩
        true "2024-06-01T00:00:00").executionCreated = true :=
  c3_start_not_idempotent "running" "full_load"
    ⟨"running", "full_load", "on_demand", ["dbo.Orders"], []⟩
    (Or.inl rfl) (by decide) rfl true "2024-06-01T00:00:00"

/-- Claim C5, counterexample: a CDC sync in which table `dbo.A` succeeds
(5 changes) and table `dbo.B` fails is recorded by `execute_cdc_polling`
with TaskExecution status `success`, not `partial_success`. -/
theorem c5_counterexample :
    executeCdcSync false false c5SourceOf ["dbo.A", "dbo.B"] [] =
      .ok c5Result ∧
    (executeCdcPolling "running" false false c5SourceOf ["dbo.A", "dbo.B"]
        [] "on_demand" none).1 = some "success" ∧
    "success" ≠ "partial_success" := by
  exact ⟨rfl, rfl, by decide⟩

/-- Claim C5, amended: per-table CDC failures are swallowed
(`execute_cdc_sync` catches them, marks the `TableExecution` failed and
continues), so every poll whose sync returns - even with a mix of successful
and failed tables - is recorded with TaskExecution status `success`;
`partial_success` is never produced. -/
theorem c5_partial_failure_records_success (tn : Bool)
    (srcOf : String → CdcSource) (tables : List String) (d : CdcDict)
    (sched : String) (iv : Option Nat) (r : CdcSyncResult)
    (hr : executeCdcSync false tn srcOf tables d = .ok r)
    (hs : ∃ p ∈ r.perTable, p.2 = "success")
    (hf : ∃ p ∈ r.perTable, p.2 = "failed") :
    (executeCdcPolling "running" false tn srcOf tables d sched iv).1 =
      some "success" := by
  unfold executeCdcPolling
  rw [if_neg (by simp), hr]

theorem c5_partial_failure_records_success_witness :
    executeCdcSync false false c5SourceOf ["dbo.A", "dbo.B"] [] =
      .ok c5Result ∧
    (∃ p ∈ c5Result.perTable, p.2 = "success") ∧
    (∃ p ∈ c5Result.perTable, p.2 = "failed") ∧
    (executeCdcPolling "running" false false c5SourceOf ["dbo.A", "dbo.B"]
        [] "continuous" none).1 = some "success" :=
  ⟨rfl, ⟨("A", "success"), by simp [c5Result], rfl⟩,
    ⟨("B", "failed"), by simp [c5Result], rfl⟩,
    c5_partial_failure_records_success false c5SourceOf ["dbo.A", "dbo.B"]
      [] "continuous" none c5Result rfl
      ⟨("A", "success"), by simp [c5Result], rfl⟩
      ⟨("B", "failed"), by simp [c5Result], rfl⟩⟩

/-- Claim C6, counterexample: a CDC poll whose read returns an EMPTY batch
with end-LSN `0x02` succeeds with zero changes, but the persisted cursor for
the table changes from `0x01` to `0x02` - it is not left unchanged, and it is
updated although no destination write occurred. -/
theorem c6_counterexample :
    executeCdcSync false false c6SourceOf ["dbo.A"]
        [("A_last_lsn", .lsn (some "0x01"))] =
      .ok ⟨[("A", "success")], 0, [("A_last_lsn", .lsn (some "0x02"))]⟩ ∧
    getLsn [("A_last_lsn", CdcVal.lsn (some "0x02"))] "A_last_lsn" ≠
      getLsn [("A_last_lsn", CdcVal.lsn (some "0x01"))] "A_last_lsn" := by
  exact ⟨rfl, by decide⟩

/-- Claim C6, amended: an empty CDC batch yields a successful table sync with
zero changes, but the persisted cursor is overwritten with the end-LSN
returned by the source (which may differ from the stored cursor).  For a
non-empty batch (with no transformations configured) the cursor is updated
exactly when the destination write succeeds: a failed write, or a raised
read, leaves the cursor map unchanged. -/
theorem c6_cursor_update_semantics (tn : Bool) (src : CdcSource)
    (tableFull : String) (d : CdcDict) (n : Nat) (L : Option String)
    (e : String) (hen : src.isCdcEnabled = true) :
    (src.readCdc (getLsn d (bareTableName tableFull ++ "_last_lsn")) =
        .ok (0, L) →
      cdcSyncTable tn src tableFull d =
        (dSet d (bareTableName tableFull ++ "_last_lsn") (.lsn L),
          .success 0)) ∧
    (src.readCdc (getLsn d (bareTableName tableFull ++ "_last_lsn")) =
        .ok (n, L) → n ≠ 0 → tn = false → src.writeOk = false →
      cdcSyncTable tn src tableFull d = (d, .failed "WriteError")) ∧
    (src.readCdc (getLsn d (bareTableName tableFull ++ "_last_lsn")) =
        .ok (n, L) → n ≠ 0 → tn = false → src.writeOk = true →
      cdcSyncTable tn src tableFull d =
        (dSet d (bareTableName tableFull ++ "_last_lsn") (.lsn L),
          .success n)) ∧
    (src.readCdc (getLsn d (bareTableName tableFull ++ "_last_lsn")) =
        .error e →
      cdcSyncTable tn src tableFull d = (d, .failed e)) := by
  refine ⟨?_, ?_, ?_, ?_⟩
  · intro hread
    simp [cdcSyncTable, cdcSyncTableBody, hen, hread]
  · intro hread hn htn hw
    simp [cdcSyncTable, cdcSyncTableBody, hen, hread, hn, htn, hw]
  · intro hread hn htn hw
    simp [cdcSyncTable, cdcSyncTableBody, hen, hread, hn, htn, hw]
  · intro hread
    simp [cdcSyncTable, cdcSyncTableBody, hen, hread]

theorem c6_cursor_update_semantics_witness :
    (c6SourceOf "dbo.A").isCdcEnabled = true ∧
    (((c6SourceOf "dbo.A").readCdc
        (getLsn [("A_last_lsn", CdcVal.lsn (some "0x01"))]
          (bareTableName "dbo.A" ++ "_last_lsn")) =
        .ok (0, some "0x02") →
      cdcSyncTable false (c6SourceOf "dbo.A") "dbo.A"
          [("A_last_lsn", CdcVal.lsn (some "0x01"))] =
        (dSet [("A_last_lsn", CdcVal.lsn (some "0x01"))]
          (bareTableName "dbo.A" ++ "_last_lsn") (.lsn (some "0x02")),
          .success 0)) ∧
    ((c6SourceOf "dbo.A").readCdc
        (getLsn [("A_last_lsn", CdcVal.lsn (some "0x01"))]
          (bareTableName "dbo.A" ++ "_last_lsn")) =
        .ok (3, some "0x02") → (3 : Nat) ≠ 0 → false = false →
        (c6SourceOf "dbo.A").writeOk = false →
      cdcSyncTable false (c6SourceOf "dbo.A") "dbo.A"
          [("A_last_lsn", CdcVal.lsn (some "0x01"))] =
        ([("A_last_lsn", CdcVal.lsn (some "0x01"))],
          .failed "WriteError")) ∧
    ((c6SourceOf "dbo.A").readCdc
        (getLsn [("A_last_lsn", CdcVal.lsn (some "0x01"))]
          (bareTableName "dbo.A" ++ "_last_lsn")) =
        .ok (3, some "0x02") → (3 : Nat) ≠ 0 → false = false →
        (c6SourceOf "dbo.A").writeOk = true →
      cdcSyncTable false (c6SourceOf "dbo.A") "dbo.A"
          [("A_last_lsn", CdcVal.lsn (some "0x01"))] =
        (dSet [("A_last_lsn", CdcVal.lsn (some "0x01"))]
          (bareTableName "dbo.A" ++ "_last_lsn") (.lsn (some "0x02")),
          .success 3)) ∧
    ((c6SourceOf "dbo.A").readCdc
        (getLsn [("A_last_lsn", CdcVal.lsn (some "0x01"))]
          (bareTableName "dbo.A" ++ "_last_lsn")) =
        .error "boom" →
      cdcSyncTable false (c6SourceOf "dbo.A") "dbo.A"
          [("A_last_lsn", CdcVal.lsn (some "0x01"))] =
        ([("A_last_lsn", CdcVal.lsn (some "0x01"))], .failed "boom"))) :=
  ⟨rfl,
    c6_cursor_update_semantics false (c6SourceOf "dbo.A") "dbo.A"
      [("A_last_lsn", CdcVal.lsn (some "0x01"))] 3 (some "0x02") "boom" rfl⟩

/-- Claim C10 (confirmed): in `execute_cdc_sync`, the local `database_name`
is read at line 619 before its only assignment at line 630, so for every CDC
table sync where the task has a non-empty transformation list and the CDC
read returns a non-empty batch, the per-table processing raises
`UnboundLocalError`; the `TableExecution` is marked `failed`, no rows of the
batch are written, the cursor map is unchanged, and the loop continues with
the remaining tables. -/
theorem c10_transformations_unbound_local (srcOf : String → CdcSource)
    (tableFull : String) (d : CdcDict) (ts : List String) (n : Nat)
    (L : Option String) (r : CdcSyncResult)
    (hen : (srcOf tableFull).isCdcEnabled = true)
    (hread : (srcOf tableFull).readCdc
        (getLsn d (bareTableName tableFull ++ "_last_lsn")) = .ok (n, L))
    (hn : n ≠ 0)
    (hrest : executeCdcSync false true srcOf ts d = .ok r) :
    cdcSyncTable true (srcOf tableFull) tableFull d =
      (d, .failed unboundLocalDatabaseName) ∧
    executeCdcSync false true srcOf (tableFull :: ts) d =
      .ok ⟨(bareTableName tableFull, "failed") :: r.perTable,
        r.totalChanges, r.dict⟩ := by
  have h1 : cdcSyncTable true (srcOf tableFull) tableFull d =
      (d, .failed unboundLocalDatabaseName) := by
    simp [cdcSyncTable, cdcSyncTableBody, hen, hread, hn]
  refine ⟨h1, ?_⟩
  rw [executeCdcSync]
  simp [h1, hrest, recordedTableStatus, tblChanges]

theorem hasKey_dPop_self (d : CdcDict) (k : String) :
    hasKey (dPop d k) k = false := by
  induction d with
  | nil => rfl
  | cons a l ih =>
    by_cases h : a.1 = k
    · simp only [dPop, List.filter_cons, h] at ih ⊢
      simpa using ih
    · simpa [dPop, List.filter_cons, h, hasKey] using ih

theorem hasKey_dPop_mono (d : CdcDict) (k k2 : String)
    (h : hasKey d k = false) : hasKey (dPop d k2) k = false := by
  by_contra hc
  rw [Bool.not_eq_false] at hc
  simp only [hasKey, List.any_eq_true] at hc
  obtain ⟨p, hp, hpk⟩ := hc
  have hpd : p ∈ d := List.mem_of_mem_filter hp
  have : hasKey d k = true := by
    simp only [hasKey, List.any_eq_true]
    exact ⟨p, hpd, hpk⟩
  rw [h] at this
  cases this

theorem cleanupRemovedTable_mono (d : CdcDict) (t k : String)
    (h : hasKey d k = false) :
    hasKey (cleanupRemovedTable d t) k = false :=
  hasKey_dPop_mono _ _ _ (hasKey_dPop_mono _ _ _ (hasKey_dPop_mono _ _ _ h))

theorem cleanupRemovedTable_clears (d : CdcDict) (t : String) :
    hasKey (cleanupRemovedTable d t) t = false ∧
    hasKey (cleanupRemovedTable d t) (lastDotComponent t ++ "_last_lsn") =
      false ∧
    hasKey (cleanupRemovedTable d t) (t ++ "_last_lsn") = false := by
  unfold cleanupRemovedTable
  exact ⟨hasKey_dPop_mono _ _ _ (hasKey_dPop_mono _ _ _ (hasKey_dPop_self d t)),
    hasKey_dPop_mono _ _ _ (hasKey_dPop_self _ _),
    hasKey_dPop_self _ _⟩

theorem hasKey_foldl_cleanup_mono (l : List String) (k : String) :
    ∀ d : CdcDict, hasKey d k = false →
      hasKey (l.foldl cleanupRemovedTable d) k = false := by
  induction l with
  | nil => intro d h; exact h
  | cons a l ih =>
    intro d h
    rw [List.foldl_cons]
    exact ih _ (cleanupRemovedTable_mono d a k h)

theorem foldl_cleanup_clears (t : String) :
    ∀ l : List String, t ∈ l → ∀ d : CdcDict,
      hasKey (l.foldl cleanupRemovedTable d) t = false ∧
      hasKey (l.foldl cleanupRemovedTable d)
        (lastDotComponent t ++ "_last_lsn") = false ∧
      hasKey (l.foldl cleanupRemovedTable d) (t ++ "_last_lsn") = false := by
  intro l
  induction l with
  | nil => intro h; cases h
  | cons a l ih =>
    intro hmem d
    rcases List.mem_cons.mp hmem with h | h
    · subst h
      rw [List.foldl_cons]
      obtain ⟨h1, h2, h3⟩ := cleanupRemovedTable_clears d t
      exact ⟨hasKey_foldl_cleanup_mono l _ _ h1,
        hasKey_foldl_cleanup_mono l _ _ h2,
        hasKey_foldl_cleanup_mono l _ _ h3⟩
    · rw [List.foldl_cons]
      exact ih h (cleanupRemovedTable d a)

/-- Claim C7, counterexample: removing `dbo.A` from a task whose CDC state is
`(A -> True, A_last_lsn -> 0x01)` (exactly the keys `execute_cdc_sync`
writes) and whose `full_load_completed_tables` is `(dbo.A -> time)` leaves
the bare-name enabled flag `A` in the CDC state AND leaves the
`full_load_completed_tables` entry untouched. -/
theorem c7_counterexample :
    updateTaskTables ["dbo.A", "dbo.B"] ["dbo.B"]
        [("A", CdcVal.flag true), ("A_last_lsn", CdcVal.lsn (some "0x01"))]
        [("dbo.A", "2024-01-01T00:00:00")] =
      ([("A", CdcVal.flag true)], [("dbo.A", "2024-01-01T00:00:00")]) ∧
    hasKey [("A", CdcVal.flag true)] "A" = true ∧
    hasCompletedKey [("dbo.A", "2024-01-01T00:00:00")] "dbo.A" = true := by
  exact ⟨rfl, rfl, rfl⟩

/-- Claim C7, amended: a task update that removes table `t` from
`source_tables` (with a non-empty CDC state) removes from the CDC state the
schema-qualified key `t` and both last-cursor key forms
(`base_last_lsn` and `t_last_lsn`), but `full_load_completed_tables` is
returned unchanged (so a completed-tables entry for `t` survives, as does
the enabled flag stored under the bare table name). -/
theorem c7_removed_table_cleanup (oldTables newTables : List String)
    (cdc : CdcDict) (flc : List (String × String)) (t : String)
    (hmem : t ∈ oldTables) (hnew : newTables.contains t = false)
    (hcdc : cdc.isEmpty = false) :
    hasKey (updateTaskTables oldTables newTables cdc flc).1 t = false ∧
    hasKey (updateTaskTables oldTables newTables cdc flc).1
      (lastDotComponent t ++ "_last_lsn") = false ∧
    hasKey (updateTaskTables oldTables newTables cdc flc).1
      (t ++ "_last_lsn") = false ∧
    (updateTaskTables oldTables newTables cdc flc).2 = flc := by
  have hrem : t ∈ oldTables.filter (fun tb => !(newTables.contains tb)) :=
    List.mem_filter.mpr ⟨hmem, by rw [hnew]; rfl⟩
  have hne :
      (oldTables.filter (fun tb => !(newTables.contains tb))).isEmpty =
        false := by
    cases hfil : oldTables.filter (fun tb => !(newTables.contains tb)) with
    | nil => rw [hfil] at hrem; cases hrem
    | cons _ _ => rfl
  unfold updateTaskTables
  simp only [hne, hcdc, Bool.not_false, Bool.and_self, if_true]
  obtain ⟨h1, h2, h3⟩ :=
    foldl_cleanup_clears t
      (oldTables.filter (fun tb => !(newTables.contains tb))) hrem cdc
  exact ⟨h1, h2, h3, by trivial⟩

theorem c7_removed_table_cleanup_witness :
    "dbo.A" ∈ ["dbo.A", "dbo.B"] ∧
    (["dbo.B"].contains "dbo.A") = false ∧
    (([("A", CdcVal.flag true),
        ("A_last_lsn", CdcVal.lsn (some "0x01"))] : CdcDict)).isEmpty =
      false ∧
    (hasKey (updateTaskTables ["dbo.A", "dbo.B"] ["dbo.B"]
        [("A", CdcVal.flag true), ("A_last_lsn", CdcVal.lsn (some "0x01"))]
        [("dbo.A", "2024-01-01T00:00:00")]).1 "dbo.A" = false ∧
      hasKey (updateTaskTables ["dbo.A", "dbo.B"] ["dbo.B"]
        [("A", CdcVal.flag true), ("A_last_lsn", CdcVal.lsn (some "0x01"))]
        [("dbo.A", "2024-01-01T00:00:00")]).1
        (lastDotComponent "dbo.A" ++ "_last_lsn") = false ∧
      hasKey (updateTaskTables ["dbo.A", "dbo.B"] ["dbo.B"]
        [("A", CdcVal.flag true), ("A_last_lsn", CdcVal.lsn (some "0x01"))]
        [("dbo.A", "2024-01-01T00:00:00")]).1 ("dbo.A" ++ "_last_lsn") =
        false ∧
      (updateTaskTables ["dbo.A", "dbo.B"] ["dbo.B"]
        [("A", CdcVal.flag true), ("A_last_lsn", CdcVal.lsn (some "0x01"))]
        [("dbo.A", "2024-01-01T00:00:00")]).2 =
        [("dbo.A", "2024-01-01T00:00:00")]) :=
  ⟨by simp, by decide, by decide,
    c7_removed_table_cleanup ["dbo.A", "dbo.B"] ["dbo.B"]
      [("A", CdcVal.flag true), ("A_last_lsn", CdcVal.lsn (some "0x01"))]
      [("dbo.A", "2024-01-01T00:00:00")] "dbo.A" (by simp) (by decide)
      (by decide)⟩

theorem c10_transformations_unbound_local_witness :
    (c10SourceOf "dbo.A").isCdcEnabled = true ∧
    (c10SourceOf "dbo.A").readCdc
        (getLsn [] (bareTableName "dbo.A" ++ "_last_lsn")) =
      .ok (3, some "0x05") ∧
    (3 : Nat) ≠ 0 ∧
    executeCdcSync false true c10SourceOf ["dbo.B"] [] =
      .ok ⟨[("B", "failed")], 0, []⟩ ∧
    (cdcSyncTable true (c10SourceOf "dbo.A") "dbo.A" [] =
        ([], .failed unboundLocalDatabaseName) ∧
      executeCdcSync false true c10SourceOf ["dbo.A", "dbo.B"] [] =
        .ok ⟨[("A", "failed"), ("B", "failed")], 0, []⟩) :=
  ⟨rfl, rfl, by decide, rfl,
    c10_transformations_unbound_local c10SourceOf "dbo.A" [] ["dbo.B"] 3
      (some "0x05") ⟨[("B", "failed")], 0, []⟩ rfl rfl (by decide) rfl⟩

/-- Claim C8, counterexample: for the template
`tenants/$customerId/$tableName/data_$timestamp` with `customerId` resolving
to 42, table `Orders`, evaluation time 2024-03-01T12:00:00Z and parquet
format, the computed object key is NOT
`tenants/42/Orders/data_20240301_120000.parquet`: the resolver already
substitutes `$timestamp`, so the final segment contains neither a dot nor a
dollar sign and `write_data` treats the entire resolved path as a
directory. -/
theorem c8_counterexample :
    s3WriteDataKey "tenants/$customerId/$tableName/data_$timestamp" ""
        c8Env false "" "Orders" none "append" "parquet" ≠
      "tenants/42/Orders/data_20240301_120000.parquet" := by
  decide

/-- Claim C8, amended: the template resolves to
`tenants/42/Orders/data_20240301_120000`, and since the final segment has no
dot and no dollar sign, `write_data` appends a `data_<timestamp>.parquet`
filename under it, producing the nested key
`tenants/42/Orders/data_20240301_120000/data_20240301_120000.parquet`. -/
theorem c8_resolved_key :
    resolveTemplate c8Env "tenants/$customerId/$tableName/data_$timestamp" =
      "tenants/42/Orders/data_20240301_120000" ∧
    s3WriteDataKey "tenants/$customerId/$tableName/data_$timestamp" ""
        c8Env false "" "Orders" none "append" "parquet" =
      "tenants/42/Orders/data_20240301_120000/data_20240301_120000.parquet" := by
  exact ⟨by decide, by decide⟩

/-- Claim C9, counterexample: an `apply_function` transform whose function
string is not one of the four named functions DOES reach arbitrary code
evaluation: the string is passed to Python `eval`. -/
theorem c9_counterexample :
    (applyFunctionTransform (fun _ => none) [("c", [Cell.s "x"])] "c"
        "lambda v: v + v" none).evalCalled = true ∧
    (applyFunctionTransform (fun _ => none) [("c", [Cell.s "x"])] "c"
        "lambda v: v + v" none).evalArg = some "lambda v: v + v" := by
  exact ⟨rfl, rfl⟩

/-- Claim C9, amended: for `upper`, `lower`, `trim` and `length` the named
pure function is applied to the column with no evaluation of user code; for
ANY other function string (on an existing column) the string is passed to
Python `eval` and the resulting callable, if any, is applied - arbitrary
evaluation of the user-supplied transformation argument is performed, not
forbidden. -/
theorem c9_apply_function_dispatch (pyEval : String → Option (Cell → Cell))
    (df : DataFrame) (col fn : String) (target : Option String)
    (cells : List Cell) (hcol : dfGetCol df col = some cells) :
    (fn = "upper" →
      applyFunctionTransform pyEval df col fn target =
        ⟨dfSetCol df (target.getD col) (cells.map upperCell), false, none⟩) ∧
    (fn = "lower" →
      applyFunctionTransform pyEval df col fn target =
        ⟨dfSetCol df (target.getD col) (cells.map lowerCell), false, none⟩) ∧
    (fn = "trim" →
      applyFunctionTransform pyEval df col fn target =
        ⟨dfSetCol df (target.getD col) (cells.map trimCell), false, none⟩) ∧
    (fn = "length" →
      applyFunctionTransform pyEval df col fn target =
        ⟨dfSetCol df (target.getD col) (cells.map lengthCell), false, none⟩) ∧
    (fn ≠ "upper" → fn ≠ "lower" → fn ≠ "trim" → fn ≠ "length" →
      (applyFunctionTransform pyEval df col fn target).evalCalled = true ∧
      (applyFunctionTransform pyEval df col fn target).evalArg = some fn) := by
  refine ⟨?_, ?_, ?_, ?_, ?_⟩
  · intro h; subst h; simp [applyFunctionTransform, hcol]
  · intro h; subst h; simp [applyFunctionTransform, hcol]
  · intro h; subst h; simp [applyFunctionTransform, hcol]
  · intro h; subst h; simp [applyFunctionTransform, hcol]
  · intro h1 h2 h3 h4
    simp only [applyFunctionTransform, hcol, h1, h2, h3, h4, if_false]
    cases pyEval fn <;> simp

theorem c9_apply_function_dispatch_witness :
    dfGetCol [("c", [Cell.s " a "])] "c" = some [Cell.s " a "] ∧
    ((("upper" : String) = "upper" →
      applyFunctionTransform (fun _ => none) [("c", [Cell.s " a "])] "c"
          "upper" none =
        ⟨dfSetCol [("c", [Cell.s " a "])] "c"
          ([Cell.s " a "].map upperCell), false, none⟩) ∧
    (("upper" : String) = "lower" →
      applyFunctionTransform (fun _ => none) [("c", [Cell.s " a "])] "c"
          "upper" none =
        ⟨dfSetCol [("c", [Cell.s " a "])] "c"
          ([Cell.s " a "].map lowerCell), false, none⟩) ∧
    (("upper" : String) = "trim" →
      applyFunctionTransform (fun _ => none) [("c", [Cell.s " a "])] "c"
          "upper" none =
        ⟨dfSetCol [("c", [Cell.s " a "])] "c"
          ([Cell.s " a "].map trimCell), false, none⟩) ∧
    (("upper" : String) = "length" →
      applyFunctionTransform (fun _ => none) [("c", [Cell.s " a "])] "c"
          "upper" none =
        ⟨dfSetCol [("c", [Cell.s " a "])] "c"
          ([Cell.s " a "].map lengthCell), false, none⟩) ∧
    (("upper" : String) ≠ "upper" → ("upper" : String) ≠ "lower" →
      ("upper" : String) ≠ "trim" → ("upper" : String) ≠ "length" →
      (applyFunctionTransform (fun _ => none) [("c", [Cell.s " a "])] "c"
          "upper" none).evalCalled = true ∧
      (applyFunctionTransform (fun _ => none) [("c", [Cell.s " a "])] "c"
          "upper" none).evalArg = some "upper")) :=
  ⟨rfl,
    c9_apply_function_dispatch (fun _ => none) [("c", [Cell.s " a "])] "c"
      "upper" none [Cell.s " a "] rfl⟩

end DTaaS
